import Mathlib

/-!
Verification development for the minio-control-api repository.

The embedding covers:
- the Cache Store client (core/caching/in_redis.py is absent from the sources,
  so its get/set/delete operations are modelled from the specification of the
  Cache Store capability);
- the link resolution engine `get_file_link_service` and the detached
  validation task `check_cached_images` (src/api/v1/services/files.py);
- the bucket provisioner `ensure_bucket_exists` together with
  `bucket_exists` and `create_bucket` (src/core/files/in_minio.py);
- the request validators of the pydantic request models
  (src/api/v1/models/request_models/buckets.py and files.py), including a
  faithful embedding of Python's os.path.splitext;
- the response envelope logic of the get-image-link route handler
  (src/api/v1/routers/files.py).

External third-party collaborators (the aiobotocore s3 client and the HTTP
probe of aiohttp) are abstracted as oracle parameters: `Env` carries the
object-store answers, `ProbeOutcome` the outcome of the HTTP GET issued by
the validation task, and `GatewayState` the set of buckets known to the
object store for the provisioner.
-/

deriving instance DecidableEq for Except

/-- One stored value of the Cache Store: the link string, the TTL in
seconds it was written with, and whether it was written compressed. -/
structure CacheEntry where
  value : String
  ttl : Nat
  compressed : Bool
deriving DecidableEq, Repr

/-- The Cache Store contents: an association of keys to entries. -/
abbrev Cache := List (String × CacheEntry)

/-- Modelled from the spec: the Cache Store capability operation
`get(key, compressed) -> value | absent` (the client in
core/caching/in_redis.py is not under src/). The compression flag selects
the decoding of the stored payload and does not affect which key is read. -/
def cacheGet (cache : Cache) (key : String) (compressed : Bool) : Option String :=
  (List.lookup key cache).map (fun e => e.value)

/-- Modelled from the spec: the Cache Store capability operation
`set(key, value, ttlSeconds, compress)` — an independent overwrite of one
key (the client in core/caching/in_redis.py is not under src/). -/
def cacheSet (cache : Cache) (key value : String) (ttl : Nat) (compress : Bool) : Cache :=
  (key, ⟨value, ttl, compress⟩) :: cache.filter (fun kv => !(kv.1 == key))

/-- Modelled from the spec: the Cache Store capability operation
`delete(key)` (the client in core/caching/in_redis.py is not under src/). -/
def cacheDelete (cache : Cache) (key : String) : Cache :=
  cache.filter (fun kv => !(kv.1 == key))

/-- The object-store answers consumed by the engine, abstracting the
aiobotocore s3 client wrapped by AsyncMinIOClient: `fileExists bucket path`
is the outcome of head_object (True on success, False on ClientError), and
`presign bucket path expiration` is the string returned by
generate_presigned_url. -/
structure Env where
  fileExists : String → String → Bool
  presign : String → String → Nat → String

/-- Observable calls made by one engine invocation, recorded in order. -/
inductive Event where
  | cacheGet (key : String)
  | spawnValidation (link key : String)
  | gatewayExists (bucket path : String)
  | presign (bucket path : String) (expiration : Nat)
  | cacheSet (key value : String) (ttl : Nat) (compress : Bool)
deriving DecidableEq, Repr

/-- The placeholder_map dictionary of src/api/v1/services/files.py. -/
def placeholder_map : List (String × String) :=
  [("image", "img/placeholder.jpg"),
   ("video", "vid/placeholder.mp4"),
   ("audio", "aud/placeholder.mp3"),
   ("document", "doc/placeholder.pdf"),
   ("archive", "zip/placeholder.zip"),
   ("presentation", "ppt/placeholder.pptx"),
   ("code", "src/placeholder.py"),
   ("spreadsheet", "xls/placeholder.xlsx")]

/-- The cache key expression of get_file_link_service. -/
def file_link_key (bucket_name file_path : String) : String :=
  "file_link:" ++ bucket_name ++ ":" ++ file_path

/-- The message of the ValueError raised by get_file_link_service when the
object is absent and no placeholder fallback applies. -/
def notFoundMessage (file_path bucket_name : String) : String :=
  "File " ++ file_path ++ " does not exist in bucket " ++ bucket_name

/-- The str() of the KeyError raised by the lookup placeholder_map of the
file type: the missing key wrapped in single quotes (Char.ofNat 39). -/
def keyErrorMessage (file_type : String) : String :=
  String.mk (Char.ofNat 39 :: file_type.data ++ [Char.ofNat 39])

/-- The default expiration of AsyncMinIOClient.get_presigned_url, used by
the engine because it passes no expiration argument. -/
def get_presigned_url_default_expiration : Nat := 3600

/-- AsyncMinIOClient.get_presigned_url over the abstract client presign. -/
def get_presigned_url (env : Env) (bucket object_name : String) (expiration : Nat) : String :=
  env.presign bucket object_name expiration

/-- Fuelled embedding of get_file_link_service
(src/api/v1/services/files.py). The fuel counter bounds the recursion
depth of the placeholder fallback; fuel 0 yields none. The result is the
value returned (or the message of the exception raised), the Cache Store
contents afterwards, and the trace of calls issued. The cache hit branch
records the scheduling of the detached validation task and returns at
once. -/
def get_file_link_serviceF (env : Env) :
    Nat → String → String → String → Bool → Cache →
    Option (Except String String × Cache × List Event)
  | 0, _, _, _, _, _ => none
  | fuel + 1, bucket_name, file_path, file_type, placeholder_if_not_found, cache =>
    let key := file_link_key bucket_name file_path
    match cacheGet cache key true with
    | some cached_link =>
        some (Except.ok cached_link, cache,
              [Event.cacheGet key, Event.spawnValidation cached_link key])
    | none =>
        if env.fileExists bucket_name file_path then
          let link := get_presigned_url env bucket_name file_path
            get_presigned_url_default_expiration
          some (Except.ok link,
                cacheSet cache (file_link_key bucket_name file_path) link 3600 true,
                [Event.cacheGet key, Event.gatewayExists bucket_name file_path,
                 Event.presign bucket_name file_path get_presigned_url_default_expiration,
                 Event.cacheSet (file_link_key bucket_name file_path) link 3600 true])
        else if placeholder_if_not_found then
          match List.lookup file_type placeholder_map with
          | some placeholder_path =>
              (get_file_link_serviceF env fuel "default" placeholder_path file_type
                  false cache).map
                (fun r => (r.1, r.2.1,
                  Event.cacheGet key :: Event.gatewayExists bucket_name file_path :: r.2.2))
          | none =>
              some (Except.error (keyErrorMessage file_type), cache,
                    [Event.cacheGet key, Event.gatewayExists bucket_name file_path])
        else
          some (Except.error (notFoundMessage file_path bucket_name), cache,
                [Event.cacheGet key, Event.gatewayExists bucket_name file_path])

/-- get_file_link_service: the fuelled embedding at fuel 2, which is shown
below to be enough for every input (the recursive fallback call always
passes placeholder_if_not_found as False, so recursion depth is one). The
default of getD is never reached. -/
def get_file_link_service (env : Env) (bucket_name file_path file_type : String)
    (placeholder_if_not_found : Bool) (cache : Cache) :
    Except String String × Cache × List Event :=
  (get_file_link_serviceF env 2 bucket_name file_path file_type
      placeholder_if_not_found cache).getD
    (Except.error "", cache, [])

/-- Outcome of the HTTP GET issued by check_cached_images on the cached
link: a response with some status, or a transport failure (an exception
raised during the fetch). -/
inductive ProbeOutcome where
  | response (status : Nat)
  | failure (msg : String)
deriving DecidableEq, Repr

/-- Embedding of check_cached_images (src/api/v1/services/files.py), the
body of the detached validation task: on a response whose status is not
200 the key is deleted from the Cache Store; on a 200 response nothing
happens; a transport failure raises out of the task body before the
deletion statement is reached. Returns the Cache Store afterwards and
whether an exception escaped the task body (such an exception stays inside
the detached task created by asyncio.create_task and is never delivered to
the request that scheduled it). -/
def check_cached_images (probe : ProbeOutcome) (key : String) (cache : Cache) :
    Cache × Bool :=
  match probe with
  | .response status => if status ≠ 200 then (cacheDelete cache key, false) else (cache, false)
  | .failure _ => (cache, true)

/-- The buckets known to the object store, as seen by one gateway call. -/
abbrev GatewayState := List String

/-- The head_bucket call behind AsyncMinIOClient.bucket_exists: succeeds
exactly when the bucket exists. -/
def head_bucket (s : GatewayState) (bucket : String) : Except String Unit :=
  if s.contains bucket then Except.ok () else Except.error "404 Not Found"

/-- AsyncMinIOClient.bucket_exists (src/core/files/in_minio.py): True when
head_bucket succeeds, False when it raises ClientError. -/
def bucket_exists (s : GatewayState) (bucket : String) : Bool :=
  match head_bucket s bucket with
  | .ok _ => true
  | .error _ => false

/-- AsyncMinIOClient.create_bucket (src/core/files/in_minio.py) against a
MinIO gateway, which answers a create of an existing bucket with a
BucketAlreadyOwnedByYou error (propagated as ClientError — the wrapper
adds no handling). -/
def create_bucket (s : GatewayState) (bucket : String) : Except String GatewayState :=
  if s.contains bucket then Except.error ("BucketAlreadyOwnedByYou: " ++ bucket)
  else Except.ok (bucket :: s)

/-- AsyncMinIOClient.ensure_bucket_exists (src/core/files/in_minio.py):
checks existence, then creates when absent. The two gateway snapshots are
the states observed by the two awaits; they differ exactly when a
concurrent actor mutates the gateway between the existence check and the
create call. -/
def ensure_bucket_exists (sCheck sCreate : GatewayState) (bucket : String) :
    Except String GatewayState :=
  if bucket_exists sCheck bucket then Except.ok sCreate
  else create_bucket sCreate bucket

/-- The character set of the create-bucket validator
(src/api/v1/models/request_models/buckets.py). Characters that the
scanning rules keep out of literals are spelled with Char.ofNat:
123 and 125 are the braces, 92 the backslash, 34 the double quote and
39 the apostrophe. -/
def unprocessable_characters : List Char :=
  ['.', ',', '!', '@', '#', '$', '%', '^', '&', '*', '(', ')', '_', '+', '=',
   Char.ofNat 123, Char.ofNat 125, '[', ']', '|', Char.ofNat 92, ':', ';',
   Char.ofNat 34, Char.ofNat 39, '<', '>', '?', '/']

/-- The field validator of CreateBucketRequest
(src/api/v1/models/request_models/buckets.py): raises when any character
of the unprocessable set occurs in the name, returns the name otherwise. -/
def bucket_name_does_not_contain_unprocessable_characters (v : String) :
    Except String String :=
  if unprocessable_characters.any (fun c => v.data.contains c) then
    Except.error "bucket_name cannot contain unprocessable characters"
  else Except.ok v

/-- Rightmost index of a character in a list, minus one when absent:
helper for the embedding of os.path.splitext. -/
def lastIndexOfAux (c : Char) : List Char → Nat → Int → Int
  | [], _, best => best
  | x :: xs, i, best => lastIndexOfAux c xs (i + 1) (if x == c then (i : Int) else best)

/-- Rightmost index of a character in a list, minus one when absent. -/
def lastIndexOf (l : List Char) (c : Char) : Int :=
  lastIndexOfAux c l 0 (-1)

/-- Embedding of Python's os.path.splitext for posix paths: the extension
starts at the rightmost dot that lies after the rightmost slash, unless
every character between them is a dot (leading dots of the basename never
start an extension). -/
def splitext (p : String) : String × String :=
  let l := p.data
  let sepIndex := lastIndexOf l '/'
  let dotIndex := lastIndexOf l '.'
  if sepIndex < dotIndex then
    if (List.range l.length).any (fun i =>
        decide (sepIndex + 1 ≤ (i : Int)) && decide ((i : Int) < dotIndex) &&
          (l.getD i '.' != '.')) then
      (String.mk (l.take dotIndex.toNat), String.mk (l.drop dotIndex.toNat))
    else (p, "")
  else (p, "")

/-- The _image_exts class constant of GetImageLinkRequestModel
(src/api/v1/models/request_models/files.py). -/
def image_exts : List String :=
  [".png", ".jpg", ".jpeg", ".gif", ".bmp", ".webp", ".tiff", ".svg"]

/-- Python str.lower on the extension strings at hand (ASCII). -/
def toLowerStr (s : String) : String :=
  String.mk (s.data.map Char.toLower)

/-- The field validator of GetImageLinkRequestModel
(src/api/v1/models/request_models/files.py): splits the extension off the
path and raises unless the extension is non-empty and its lowercase form is
a known image extension. -/
def file_path_must_be_image (v : String) : Except String String :=
  let ext := (splitext v).2
  if ext == "" || !(image_exts.contains (toLowerStr ext)) then
    Except.error "file_path must be an image file"
  else Except.ok v

/-- The response envelope of the get-image-link route
(src/api/v1/models/response_models/files.py). -/
structure GetLinkResponseModel where
  link : String
  error : Option String
deriving DecidableEq, Repr

/-- What the awaited engine call produced, as seen by the route handler:
a link string, None, or a raised exception carrying str(e). -/
inductive EngineOutcome where
  | ok (link : String)
  | noLink
  | exc (msg : String)
deriving DecidableEq, Repr

/-- The try/except/else body of get_image_link
(src/api/v1/routers/files.py): an exception yields link empty with the
exception text as error; a None link yields link empty with the fixed
error text; a link yields the link with error None. -/
def get_image_link_response : EngineOutcome → GetLinkResponseModel
  | .exc e => ⟨"", some e⟩
  | .noLink => ⟨"", some "Failed to generate link"⟩
  | .ok link => ⟨link, none⟩

/-- Interpretation of the engine result as the handler sees it: the engine
either returns a link string or raises (its annotation admits None but no
return statement produces it). -/
def engineOutcomeOf : Except String String → EngineOutcome
  | .ok l => .ok l
  | .error m => .exc m

/-- The get-image-link handler composed with the engine, file_type fixed
to image as in the route body. -/
def get_image_link (env : Env) (project_id file_path : String)
    (placeholder_if_not_found : Bool) (cache : Cache) :
    GetLinkResponseModel × Cache :=
  let r := get_file_link_service env project_id file_path "image"
    placeholder_if_not_found cache
  (get_image_link_response (engineOutcomeOf r.1), r.2.1)

/-! Helper lemmas about the fuelled engine. -/

/-- With the placeholder flag False the engine makes no recursive call, so
any positive fuel computes the same result. -/
theorem serviceF_false_fuel (env : Env) (n m : Nat) (b p ft : String) (c : Cache) :
    get_file_link_serviceF env (n + 1) b p ft false c
      = get_file_link_serviceF env (m + 1) b p ft false c := by
  cases hc : cacheGet c (file_link_key b p) true <;>
    simp [get_file_link_serviceF, hc]

/-- Fuel two is a fixed point: more fuel never changes the result. -/
theorem serviceF_fuel_ge_two (env : Env) (k : Nat) (b p ft : String) (ph : Bool) (c : Cache) :
    get_file_link_serviceF env (k + 2) b p ft ph c
      = get_file_link_serviceF env 2 b p ft ph c := by
  cases hc : cacheGet c (file_link_key b p) true with
  | some l => simp [get_file_link_serviceF, hc]
  | none =>
    by_cases hf : env.fileExists b p
    · simp [get_file_link_serviceF, hc, hf]
    · cases ph with
      | false => simp [get_file_link_serviceF, hc, hf]
      | true =>
        cases hL : List.lookup ft placeholder_map with
        | none => simp [get_file_link_serviceF, hc, hf, hL]
        | some pp => simp [get_file_link_serviceF, hc, hf, hL]

/-- Fuel two always suffices: the engine never runs out of fuel. -/
theorem serviceF_two_isSome (env : Env) (b p ft : String) (ph : Bool) (c : Cache) :
    (get_file_link_serviceF env 2 b p ft ph c).isSome = true := by
  cases hc : cacheGet c (file_link_key b p) true with
  | some l => simp [get_file_link_serviceF, hc]
  | none =>
    by_cases hf : env.fileExists b p
    · simp [get_file_link_serviceF, hc, hf]
    · cases ph with
      | false => simp [get_file_link_serviceF, hc, hf]
      | true =>
        cases hL : List.lookup ft placeholder_map with
        | none => simp [get_file_link_serviceF, hc, hf, hL]
        | some pp =>
          simp only [get_file_link_serviceF, hc, hf, hL]
          cases hcc : cacheGet c (file_link_key "default" pp) true with
          | some l => simp [get_file_link_serviceF, hcc]
          | none =>
            by_cases hf2 : env.fileExists "default" pp <;>
              simp [get_file_link_serviceF, hc, hf, hL, hcc, hf2]

/-- The NotFound message is never the empty string. -/
theorem notFoundMessage_ne_empty (p b : String) : notFoundMessage p b ≠ "" := by
  intro h
  have hd := congrArg String.data h
  simp [notFoundMessage] at hd

/-- The KeyError message is never the empty string. -/
theorem keyErrorMessage_ne_empty (ft : String) : keyErrorMessage ft ≠ "" := by
  intro h
  have hd := congrArg String.data h
  simp [keyErrorMessage] at hd

/-- Every error the engine raises carries a non-empty message. -/
theorem serviceF_error_ne_empty (env : Env) :
    ∀ (n : Nat) (b p ft : String) (ph : Bool) (c : Cache) (m : String)
      (cc : Cache) (evs : List Event),
      get_file_link_serviceF env n b p ft ph c = some (Except.error m, cc, evs) →
      m ≠ "" := by
  intro n
  induction n with
  | zero => intro b p ft ph c m cc evs h; simp [get_file_link_serviceF] at h
  | succ n ih =>
    intro b p ft ph c m cc evs h
    cases hc : cacheGet c (file_link_key b p) true with
    | some l => simp [get_file_link_serviceF, hc] at h
    | none =>
      by_cases hf : env.fileExists b p
      · simp [get_file_link_serviceF, hc, hf] at h
      · cases ph with
        | false =>
          simp [get_file_link_serviceF, hc, hf] at h
          exact h.1 ▸ notFoundMessage_ne_empty p b
        | true =>
          cases hL : List.lookup ft placeholder_map with
          | none =>
            simp [get_file_link_serviceF, hc, hf, hL] at h
            exact h.1 ▸ keyErrorMessage_ne_empty ft
          | some pp =>
            simp [get_file_link_serviceF, hc, hf, hL, Option.map_eq_some'] at h
            obtain ⟨a, c2, evs2, hr, ha, -, -⟩ := h
            exact ih "default" pp ft false c m c2 evs2 (ha ▸ hr)

/-! Claim theorems. -/

/-- C1 (amended): the detached validation task deletes the CacheKey
exactly when the HTTP fetch of the cached link yields a response whose
status is not 200; when the fetch raises (transport failure), the task
aborts without deleting and the exception stays inside the detached task;
in every case the request that scheduled the task has already returned the
cached link, so validation never blocks or fails it. -/
theorem C1_validation_deletion_policy (status : Nat) (msg key : String) (cache : Cache)
    (env : Env) (b p ft : String) (ph : Bool) (cached_link : String) :
    (status ≠ 200 →
      (check_cached_images (ProbeOutcome.response status) key cache).1 = cacheDelete cache key)
    ∧ (status = 200 → check_cached_images (ProbeOutcome.response status) key cache = (cache, false))
    ∧ check_cached_images (ProbeOutcome.failure msg) key cache = (cache, true)
    ∧ (cacheGet cache (file_link_key b p) true = some cached_link →
        get_file_link_service env b p ft ph cache =
          (Except.ok cached_link, cache,
           [Event.cacheGet (file_link_key b p),
            Event.spawnValidation cached_link (file_link_key b p)])) := by
  refine ⟨fun h => by simp [check_cached_images, h], fun h => by simp [check_cached_images, h],
    rfl, fun h => ?_⟩
  simp [get_file_link_service, get_file_link_serviceF, h]

/-- C1 counterexample: a transport failure during the probe (the claim
counts it as a probe that does not succeed) leaves the cached key in
place, so the claim that every unsuccessful probe deletes the CacheKey is
false at this input. -/
theorem C1_transport_failure_counterexample :
    check_cached_images (ProbeOutcome.failure "connection reset") "file_link:docs:a.png"
        [("file_link:docs:a.png", ⟨"http://minio/docs/a.png", 3600, true⟩)]
      = ([("file_link:docs:a.png", ⟨"http://minio/docs/a.png", 3600, true⟩)], true)
    ∧ cacheGet [("file_link:docs:a.png", ⟨"http://minio/docs/a.png", 3600, true⟩)]
        "file_link:docs:a.png" true ≠ none
    ∧ (check_cached_images (ProbeOutcome.failure "connection reset") "file_link:docs:a.png"
        [("file_link:docs:a.png", ⟨"http://minio/docs/a.png", 3600, true⟩)]).1
      ≠ cacheDelete [("file_link:docs:a.png", ⟨"http://minio/docs/a.png", 3600, true⟩)]
          "file_link:docs:a.png" := by
  decide

/-- C1 witness: a 404 probe deletes the key, and a cache hit returns the
cached link with the validation task merely scheduled. -/
theorem C1_validation_witness :
    ((404 : Nat) ≠ 200 ∧
      (check_cached_images (ProbeOutcome.response 404) "k" [("k", ⟨"v", 3600, true⟩)]).1
        = cacheDelete [("k", ⟨"v", 3600, true⟩)] "k")
    ∧ get_file_link_service (Env.mk (fun _ _ => false) (fun _ _ _ => "u"))
        "b" "p.png" "image" false [("file_link:b:p.png", ⟨"v", 3600, true⟩)] =
      (Except.ok "v", [("file_link:b:p.png", ⟨"v", 3600, true⟩)],
       [Event.cacheGet "file_link:b:p.png", Event.spawnValidation "v" "file_link:b:p.png"]) := by
  constructor
  · exact ⟨by decide, (C1_validation_deletion_policy 404 "m" "k" [("k", ⟨"v", 3600, true⟩)]
      (Env.mk (fun _ _ => false) (fun _ _ _ => "u")) "b" "p" "image" false "l").1 (by decide)⟩
  · exact (C1_validation_deletion_policy 404 "m" "k"
      [("file_link:b:p.png", ⟨"v", 3600, true⟩)]
      (Env.mk (fun _ _ => false) (fun _ _ _ => "u")) "b" "p.png" "image" false "v").2.2.2
      (by decide)

/-- C2 (amended): ensure_bucket_exists is sequentially idempotent — after
a successful call a second call for the same name never errors, and when
the bucket exists at the existence check no create call is issued and no
error surfaces; but when the bucket comes to exist between the check and
the create, the Gateway's create-on-existing-bucket error propagates out
of this component instead of being swallowed. -/
theorem C2_sequential_idempotence (b : String) (s s2 sNew : GatewayState) :
    (ensure_bucket_exists s s b = Except.ok sNew →
      ensure_bucket_exists sNew sNew b = Except.ok sNew)
    ∧ (bucket_exists s b = true → ensure_bucket_exists s s2 b = Except.ok s2) := by
  constructor
  · intro h
    by_cases hc : b ∈ s
    · simp [ensure_bucket_exists, bucket_exists, head_bucket, create_bucket, hc] at h ⊢
      subst h
      simp [hc]
    · simp [ensure_bucket_exists, bucket_exists, head_bucket, create_bucket, hc] at h ⊢
      subst h
      simp
  · intro h
    simp [ensure_bucket_exists, h]

/-- C2 counterexample: the bucket is absent at the existence check but
exists by the time the create call runs; the create error surfaces to the
caller, so the claim that it is swallowed by this component is false. -/
theorem C2_race_error_counterexample :
    bucket_exists ["mybucket"] "mybucket" = true
    ∧ ensure_bucket_exists [] ["mybucket"] "mybucket"
        = Except.error "BucketAlreadyOwnedByYou: mybucket" := by
  decide

/-- C2 witness: creating a fresh bucket succeeds and the immediate second
call is a no-op success. -/
theorem C2_sequential_witness :
    (ensure_bucket_exists [] [] "b" = Except.ok ["b"]
      ∧ ensure_bucket_exists ["b"] ["b"] "b" = Except.ok ["b"])
    ∧ (bucket_exists ["b"] "b" = true ∧ ensure_bucket_exists ["b"] ["b"] "b" = Except.ok ["b"]) := by
  refine ⟨⟨by decide, (C2_sequential_idempotence "b" [] [] ["b"]).1 (by decide)⟩, ?_⟩
  exact ⟨by decide, (C2_sequential_idempotence "b" ["b"] ["b"] []).2 (by decide)⟩

/-- C3 (amended): for every file category present in the placeholder
catalog, when no cached entry is present under the original key and the
requested object does not exist and the placeholder flag is true, the
engine result (value and final cache state) equals resolving the pair
(default, catalog entry) directly with the placeholder flag false. -/
theorem C3_placeholder_equivalence (env : Env) (bucket_name file_path file_type pp : String)
    (cache : Cache)
    (hcat : List.lookup file_type placeholder_map = some pp)
    (hmiss : cacheGet cache (file_link_key bucket_name file_path) true = none)
    (hnex : env.fileExists bucket_name file_path = false) :
    (get_file_link_service env bucket_name file_path file_type true cache).1
      = (get_file_link_service env "default" pp file_type false cache).1
    ∧ (get_file_link_service env bucket_name file_path file_type true cache).2.1
      = (get_file_link_service env "default" pp file_type false cache).2.1 := by
  have hfi : get_file_link_serviceF env 1 "default" pp file_type false cache
      = get_file_link_serviceF env 2 "default" pp file_type false cache :=
    serviceF_false_fuel env 0 1 "default" pp file_type cache
  have hs := serviceF_two_isSome env "default" pp file_type false cache
  obtain ⟨r, hr⟩ := Option.isSome_iff_exists.mp hs
  have hlhs : get_file_link_serviceF env 2 bucket_name file_path file_type true cache
      = (get_file_link_serviceF env 1 "default" pp file_type false cache).map
          (fun r => (r.1, r.2.1,
            Event.cacheGet (file_link_key bucket_name file_path)
              :: Event.gatewayExists bucket_name file_path :: r.2.2)) := by
    simp [get_file_link_serviceF, hmiss, hnex, hcat]
  rw [get_file_link_service, get_file_link_service, hlhs, hfi, hr]
  simp

/-- C3 counterexample: with a stale cached entry under the original key
the engine returns the cached link without consulting the object store,
so for an absent object with placeholder true the result differs from
resolving the catalog pair directly — the claim as stated (with no
condition on the cache) is false at this input. -/
theorem C3_stale_cache_counterexample :
    List.lookup "image" placeholder_map = some "img/placeholder.jpg"
    ∧ (Env.mk (fun _ _ => false) (fun _ _ _ => "P")).fileExists "docs" "missing.png" = false
    ∧ (get_file_link_service (Env.mk (fun _ _ => false) (fun _ _ _ => "P"))
        "docs" "missing.png" "image" true
        [("file_link:docs:missing.png", ⟨"stale", 3600, true⟩)]).1
      = Except.ok "stale"
    ∧ (get_file_link_service (Env.mk (fun _ _ => false) (fun _ _ _ => "P"))
        "default" "img/placeholder.jpg" "image" false
        [("file_link:docs:missing.png", ⟨"stale", 3600, true⟩)]).1
      ≠ Except.ok "stale" := by
  decide

/-- C3 witness: the concrete spec scenario — bucket docs, path
missing.png absent, category image, placeholder true — resolved against
an empty cache equals the direct resolution of the catalog pair. -/
theorem C3_witness :
    (get_file_link_service
        (Env.mk (fun _ b => b == "img/placeholder.jpg") (fun b p _ => b ++ "/" ++ p))
        "docs" "missing.png" "image" true []).1
      = (get_file_link_service
        (Env.mk (fun _ b => b == "img/placeholder.jpg") (fun b p _ => b ++ "/" ++ p))
        "default" "img/placeholder.jpg" "image" false []).1 := by
  exact (C3_placeholder_equivalence
    (Env.mk (fun _ b => b == "img/placeholder.jpg") (fun b p _ => b ++ "/" ++ p))
    "docs" "missing.png" "image" "img/placeholder.jpg" [] (by decide) (by decide) (by decide)).1

/-- C4: on a cache miss for an existing object the engine asks the
Gateway for a presigned URL with expiration 3600 seconds, writes exactly
that URL under the key file_link:bucket:path with TTL 3600 and
compression enabled, and returns the same URL, which is non-empty
whenever the Gateway presign output is a non-empty string. -/
theorem C4_presign_and_cache_populate (env : Env) (bucket_name file_path file_type : String)
    (ph : Bool) (cache : Cache)
    (hmiss : cacheGet cache (file_link_key bucket_name file_path) true = none)
    (hex : env.fileExists bucket_name file_path = true)
    (hne : env.presign bucket_name file_path 3600 ≠ "") :
    get_file_link_service env bucket_name file_path file_type ph cache =
      (Except.ok (env.presign bucket_name file_path 3600),
       cacheSet cache (file_link_key bucket_name file_path)
         (env.presign bucket_name file_path 3600) 3600 true,
       [Event.cacheGet (file_link_key bucket_name file_path),
        Event.gatewayExists bucket_name file_path,
        Event.presign bucket_name file_path 3600,
        Event.cacheSet (file_link_key bucket_name file_path)
          (env.presign bucket_name file_path 3600) 3600 true])
    ∧ cacheGet (cacheSet cache (file_link_key bucket_name file_path)
         (env.presign bucket_name file_path 3600) 3600 true)
        (file_link_key bucket_name file_path) true
      = some (env.presign bucket_name file_path 3600)
    ∧ List.lookup (file_link_key bucket_name file_path)
        (cacheSet cache (file_link_key bucket_name file_path)
          (env.presign bucket_name file_path 3600) 3600 true)
      = some ⟨env.presign bucket_name file_path 3600, 3600, true⟩
    ∧ file_link_key bucket_name file_path = "file_link:" ++ bucket_name ++ ":" ++ file_path
    ∧ env.presign bucket_name file_path 3600 ≠ "" := by
  refine ⟨?_, ?_, ?_, rfl, hne⟩
  · simp [get_file_link_service, get_file_link_serviceF, hmiss, hex,
      get_presigned_url, get_presigned_url_default_expiration]
  · simp [cacheGet, cacheSet, List.lookup]
  · simp [cacheSet, List.lookup]

/-- C4 witness: the concrete spec scenario — bucket docs, path report.pdf
exists — returns the presign output and caches it under
file_link:docs:report.pdf. -/
theorem C4_witness :
    get_file_link_service
        (Env.mk (fun _ _ => true) (fun b p _ => "https://minio/" ++ b ++ "/" ++ p))
        "docs" "report.pdf" "document" false [] =
      (Except.ok "https://minio/docs/report.pdf",
       [("file_link:docs:report.pdf", ⟨"https://minio/docs/report.pdf", 3600, true⟩)],
       [Event.cacheGet "file_link:docs:report.pdf",
        Event.gatewayExists "docs" "report.pdf",
        Event.presign "docs" "report.pdf" 3600,
        Event.cacheSet "file_link:docs:report.pdf" "https://minio/docs/report.pdf" 3600 true]) := by
  have h := (C4_presign_and_cache_populate
    (Env.mk (fun _ _ => true) (fun b p _ => "https://minio/" ++ b ++ "/" ++ p))
    "docs" "report.pdf" "document" false [] (by decide) (by decide) (by decide)).1
  exact h.trans (by decide)

/-- C5: on a cache miss, when the object does not exist and the
placeholder flag is false, the engine fails with the ValueError message
naming both the path and the bucket, the cache is unchanged, and the call
trace contains no cache write and no presign call. -/
theorem C5_not_found_error (env : Env) (bucket_name file_path file_type : String) (cache : Cache)
    (hmiss : cacheGet cache (file_link_key bucket_name file_path) true = none)
    (hnex : env.fileExists bucket_name file_path = false) :
    get_file_link_service env bucket_name file_path file_type false cache =
      (Except.error ("File " ++ file_path ++ " does not exist in bucket " ++ bucket_name),
       cache,
       [Event.cacheGet (file_link_key bucket_name file_path),
        Event.gatewayExists bucket_name file_path])
    ∧ (∀ key value ttl compress,
        Event.cacheSet key value ttl compress ∉
          (get_file_link_service env bucket_name file_path file_type false cache).2.2)
    ∧ (∀ b2 p2 e2,
        Event.presign b2 p2 e2 ∉
          (get_file_link_service env bucket_name file_path file_type false cache).2.2) := by
  have hmain : get_file_link_service env bucket_name file_path file_type false cache =
      (Except.error ("File " ++ file_path ++ " does not exist in bucket " ++ bucket_name),
       cache,
       [Event.cacheGet (file_link_key bucket_name file_path),
        Event.gatewayExists bucket_name file_path]) := by
    simp [get_file_link_service, get_file_link_serviceF, hmiss, hnex, notFoundMessage]
  refine ⟨hmain, ?_, ?_⟩ <;> intros <;> rw [hmain] <;> simp

/-- C5 witness: the absent object missing.pdf in bucket docs yields the
NotFound message naming both, with no cache write and no presign. -/
theorem C5_witness :
    get_file_link_service (Env.mk (fun _ _ => false) (fun _ _ _ => "u"))
        "docs" "missing.pdf" "document" false [] =
      (Except.error "File missing.pdf does not exist in bucket docs", [],
       [Event.cacheGet "file_link:docs:missing.pdf",
        Event.gatewayExists "docs" "missing.pdf"]) := by
  have h := (C5_not_found_error (Env.mk (fun _ _ => false) (fun _ _ _ => "u"))
    "docs" "missing.pdf" "document" [] (by decide) (by decide)).1
  exact h.trans (by decide)

/-- C6: the get-image-link handler always returns a well-formed envelope:
when the engine raises, the response is link empty with the raised
message as error, and that message is never empty; when the engine
returns a link, the response carries it with error absent; the handler
branch for a missing link yields link empty with the fixed non-empty
error text. -/
theorem C6_response_envelope (env : Env) (project_id file_path : String)
    (ph : Bool) (cache : Cache) :
    (∀ m, (get_file_link_service env project_id file_path "image" ph cache).1 = Except.error m →
        (get_image_link env project_id file_path ph cache).1 = ⟨"", some m⟩ ∧ m ≠ "")
    ∧ (∀ l, (get_file_link_service env project_id file_path "image" ph cache).1 = Except.ok l →
        (get_image_link env project_id file_path ph cache).1 = ⟨l, none⟩)
    ∧ get_image_link_response EngineOutcome.noLink = ⟨"", some "Failed to generate link"⟩
    ∧ (get_image_link_response EngineOutcome.noLink).error ≠ some "" := by
  have hs := serviceF_two_isSome env project_id file_path "image" ph cache
  obtain ⟨⟨r1, c1, e1⟩, hr⟩ := Option.isSome_iff_exists.mp hs
  have hserv : get_file_link_service env project_id file_path "image" ph cache = (r1, c1, e1) := by
    simp [get_file_link_service, hr]
  refine ⟨?_, ?_, rfl, by simp [get_image_link_response]⟩
  · intro m hm
    rw [hserv] at hm
    simp only at hm
    subst hm
    constructor
    · simp [get_image_link, hserv, engineOutcomeOf, get_image_link_response]
    · exact serviceF_error_ne_empty env 2 project_id file_path "image" ph cache m c1 e1 hr
  · intro l hl
    rw [hserv] at hl
    simp only at hl
    subst hl
    simp [get_image_link, hserv, engineOutcomeOf, get_image_link_response]

/-- C6 witness: an engine failure yields the envelope with empty link and
the non-empty error text, and an engine success yields the link with
error absent. -/
theorem C6_witness :
    ((get_image_link (Env.mk (fun _ _ => false) (fun _ _ _ => "u"))
        "docs" "missing.png" false []).1
      = ⟨"", some "File missing.png does not exist in bucket docs"⟩)
    ∧ "File missing.png does not exist in bucket docs" ≠ ""
    ∧ ((get_image_link (Env.mk (fun _ _ => true) (fun b p _ => b ++ "/" ++ p))
        "docs" "pic.png" false []).1
      = ⟨"docs/pic.png", none⟩) := by
  have h1 := (C6_response_envelope (Env.mk (fun _ _ => false) (fun _ _ _ => "u"))
    "docs" "missing.png" false []).1 "File missing.png does not exist in bucket docs" (by decide)
  have h2 := (C6_response_envelope (Env.mk (fun _ _ => true) (fun b p _ => b ++ "/" ++ p))
    "docs" "pic.png" false []).2.1 "docs/pic.png" (by decide)
  exact ⟨h1.1, h1.2, h2⟩

/-- C7: the create-bucket validator rejects exactly the names containing
at least one character of the unprocessable set and accepts every other
name; in particular my.bucket is rejected and the dot is the unprocessable
character it contains. -/
theorem C7_unprocessable_characters_exact (v : String) :
    ((∃ e, bucket_name_does_not_contain_unprocessable_characters v = Except.error e)
      ↔ ∃ c, c ∈ unprocessable_characters ∧ c ∈ v.data)
    ∧ ((∀ c ∈ unprocessable_characters, c ∉ v.data) →
        bucket_name_does_not_contain_unprocessable_characters v = Except.ok v)
    ∧ bucket_name_does_not_contain_unprocessable_characters "my.bucket"
        = Except.error "bucket_name cannot contain unprocessable characters"
    ∧ ('.' ∈ "my.bucket".data ∧ '.' ∈ unprocessable_characters) := by
  have hiff : (unprocessable_characters.any fun c => v.data.contains c) = true
      ↔ ∃ c ∈ unprocessable_characters, c ∈ v.data := by simp
  refine ⟨?_, ?_, by decide, by decide⟩
  · by_cases hb : unprocessable_characters.any (fun c => v.data.contains c)
    · have herr : bucket_name_does_not_contain_unprocessable_characters v
          = Except.error "bucket_name cannot contain unprocessable characters" := by
        unfold bucket_name_does_not_contain_unprocessable_characters
        rw [hb]
        simp
      exact ⟨fun _ => by simpa using hiff.mp hb, fun _ => ⟨_, herr⟩⟩
    · have hok : bucket_name_does_not_contain_unprocessable_characters v = Except.ok v := by
        unfold bucket_name_does_not_contain_unprocessable_characters
        rw [Bool.eq_false_iff.mpr hb]
        simp
      constructor
      · rintro ⟨e, he⟩
        rw [hok] at he
        cases he
      · rintro ⟨c, hcm, hcv⟩
        exact absurd (hiff.mpr ⟨c, hcm, hcv⟩) hb
  · intro h
    have hb : (unprocessable_characters.any fun c => v.data.contains c) = false := by
      rw [Bool.eq_false_iff]
      intro hany
      obtain ⟨c, hcm, hcv⟩ := hiff.mp hany
      exact h c hcm hcv
    unfold bucket_name_does_not_contain_unprocessable_characters
    rw [hb]
    simp

/-- C7 witness: my.bucket is rejected through the dot character and a
name avoiding the whole set is accepted. -/
theorem C7_witness :
    (∃ e, bucket_name_does_not_contain_unprocessable_characters "my.bucket" = Except.error e)
    ∧ bucket_name_does_not_contain_unprocessable_characters "goodname"
        = Except.ok "goodname" := by
  refine ⟨(C7_unprocessable_characters_exact "my.bucket").1.mpr
    ⟨Char.ofNat 46, by decide, by decide⟩, ?_⟩
  exact (C7_unprocessable_characters_exact "goodname").2.1 (by decide)

/-- C8 (termination and depth): for every input, fuel two computes the
fixed point of the fuelled engine, so the recursion of the placeholder
fallback has depth at most one; and when the placeholder object is itself
absent and uncached, the fallback is a hard NotFound failure on the
placeholder pair rather than a further fallback, because the recursive
call forces the placeholder flag to false. -/
theorem C8_bounded_recursion (env : Env) (k : Nat) (bucket_name file_path file_type : String)
    (ph : Bool) (cache : Cache) :
    get_file_link_serviceF env (k + 2) bucket_name file_path file_type ph cache
      = get_file_link_serviceF env 2 bucket_name file_path file_type ph cache
    ∧ (get_file_link_serviceF env 2 bucket_name file_path file_type ph cache).isSome = true
    ∧ (∀ pp, List.lookup file_type placeholder_map = some pp →
        cacheGet cache (file_link_key bucket_name file_path) true = none →
        env.fileExists bucket_name file_path = false →
        cacheGet cache (file_link_key "default" pp) true = none →
        env.fileExists "default" pp = false →
        (get_file_link_service env bucket_name file_path file_type true cache).1
          = Except.error (notFoundMessage pp "default")) := by
  refine ⟨serviceF_fuel_ge_two env k bucket_name file_path file_type ph cache,
    serviceF_two_isSome env bucket_name file_path file_type ph cache, ?_⟩
  intro pp hcat hmiss hnex hmiss2 hnex2
  simp [get_file_link_service, get_file_link_serviceF, hcat, hmiss, hnex, hmiss2, hnex2]

/-- C8 witness: with everything absent the fuelled engine at fuel five
equals fuel two, and the double miss ends in the hard placeholder
NotFound failure. -/
theorem C8_witness :
    get_file_link_serviceF (Env.mk (fun _ _ => false) (fun _ _ _ => "u")) 5
        "docs" "missing.png" "image" true []
      = get_file_link_serviceF (Env.mk (fun _ _ => false) (fun _ _ _ => "u")) 2
        "docs" "missing.png" "image" true []
    ∧ (get_file_link_service (Env.mk (fun _ _ => false) (fun _ _ _ => "u"))
        "docs" "missing.png" "image" true []).1
      = Except.error (notFoundMessage "img/placeholder.jpg" "default") := by
  refine ⟨(C8_bounded_recursion (Env.mk (fun _ _ => false) (fun _ _ _ => "u")) 3
    "docs" "missing.png" "image" true []).1, ?_⟩
  exact (C8_bounded_recursion (Env.mk (fun _ _ => false) (fun _ _ _ => "u")) 3
    "docs" "missing.png" "image" true []).2.2 "img/placeholder.jpg"
    (by decide) (by decide) (by decide) (by decide) (by decide)

/-- C9: the image validator accepts a path exactly when the lowercased
splitext extension belongs to the image extension set (so it is
case-insensitive, accepting photo.PNG), and rejects every path with an
empty or unrecognized extension. -/
theorem C9_image_extension_validator (v : String) :
    ((file_path_must_be_image v = Except.ok v)
      ↔ image_exts.contains (toLowerStr (splitext v).2) = true)
    ∧ ((splitext v).2 = "" →
        file_path_must_be_image v = Except.error "file_path must be an image file")
    ∧ (image_exts.contains (toLowerStr (splitext v).2) = false →
        file_path_must_be_image v = Except.error "file_path must be an image file")
    ∧ file_path_must_be_image "photo.PNG" = Except.ok "photo.PNG"
    ∧ toLowerStr ".PNG" = ".png" := by
  refine ⟨?_, ?_, ?_, by decide, by decide⟩
  · by_cases h1 : (splitext v).2 = ""
    · have h2 : image_exts.contains (toLowerStr (splitext v).2) = false := by
        rw [h1]; decide
      simp [file_path_must_be_image, h1, h2]
      decide
    · by_cases h2 : image_exts.contains (toLowerStr (splitext v).2)
      · simp [file_path_must_be_image, h1, h2]
      · simp [file_path_must_be_image, h1, h2]
  · intro h1
    have h2 : image_exts.contains (toLowerStr (splitext v).2) = false := by
      rw [h1]; decide
    simp [file_path_must_be_image, h1, h2]
  · intro h2
    by_cases h1 : (splitext v).2 = "" <;> simp [file_path_must_be_image, h1, h2]
    simpa using h2

/-- C9 witness: photo.PNG is accepted, notes.txt and a path with no
extension are rejected. -/
theorem C9_witness :
    file_path_must_be_image "photo.PNG" = Except.ok "photo.PNG"
    ∧ file_path_must_be_image "notes.txt" = Except.error "file_path must be an image file"
    ∧ file_path_must_be_image "noextension" = Except.error "file_path must be an image file" := by
  refine ⟨(C9_image_extension_validator "photo.PNG").1.mpr (by decide),
    (C9_image_extension_validator "notes.txt").2.2.1 (by decide),
    (C9_image_extension_validator "noextension").2.1 (by decide)⟩

/-- C10: the cache key mapping is not injective — the distinct pairs
(a:b, c.png) and (a, b:c.png) share the key file_link:a:b:c.png, and both
file paths pass the image validator, so both pairs are reachable through
the get-image-link endpoint. -/
theorem C10_cache_key_not_injective :
    file_link_key "a:b" "c.png" = file_link_key "a" "b:c.png"
    ∧ (("a:b", "c.png") : String × String) ≠ ("a", "b:c.png")
    ∧ file_path_must_be_image "c.png" = Except.ok "c.png"
    ∧ file_path_must_be_image "b:c.png" = Except.ok "b:c.png"
    ∧ file_link_key "a:b" "c.png" = "file_link:a:b:c.png" := by
  decide
